import Mathlib

/-!
# Application control core of `main/app_main.c`

A shallow embedding of the three functions of `app_main.c` that make up the
application control core:

* `bind_error_to_string` (lines 65-93),
* `app_initiator_send_press_cb` (lines 108-121),
* `app_espnow_event_handler` (lines 144-176),

together with the two pieces of process-wide mutable state they touch: the file
scope variable `s_espnow_ctrl_status` (line 62) and the function-local
`static bool status` of the button callback (line 110).

The calls into the logging macros and into `espnow_ctrl_initiator_send` are
recorded as a list of effects, in program order.  A failing `ESP_ERROR_CHECK`
is recorded as an aborted outcome.
-/

namespace ControlTransmitter

/-! ## Data model -/

/-- The enumeration `app_espnow_ctrl_status_t` (lines 56-60). -/
inductive app_espnow_ctrl_status_t
  | APP_ESPNOW_CTRL_INIT
  | APP_ESPNOW_CTRL_BOUND
  | APP_ESPNOW_CTRL_MAX
  deriving DecidableEq, Repr

/-- The constants that `app_main.c` takes from the headers it includes
(`espnow.h`, `espnow_ctrl.h`, `iot_button.h`).  Their numeric values are not
part of `app_main.c`, so they are parameters of the embedding.
`ESP_EVENT_ESPNOW` is an `esp_event_base_t`, a pointer compared by address; the
event identifiers are `int32_t`; the remaining ones are enumerators. -/
structure Headers where
  ESP_EVENT_ESPNOW : Nat
  ESP_EVENT_ESPNOW_CTRL_BIND : Int
  ESP_EVENT_ESPNOW_CTRL_BIND_ERROR : Int
  ESP_EVENT_ESPNOW_CTRL_UNBIND : Int
  ESPNOW_BIND_ERROR_NONE : Int
  ESPNOW_BIND_ERROR_TIMEOUT : Int
  ESPNOW_BIND_ERROR_RSSI : Int
  ESPNOW_BIND_ERROR_LIST_FULL : Int
  BUTTON_SINGLE_CLICK : Int
  ESPNOW_ATTRIBUTE_KEY_1 : Int
  ESPNOW_ATTRIBUTE_POWER : Int

/-- The labels of the `switch (id)` of `app_espnow_event_handler` are pairwise
distinct (a C compiler rejects a `switch` with a repeated label). -/
@[reducible]
def Headers.eventLabelsDistinct (h : Headers) : Prop :=
  h.ESP_EVENT_ESPNOW_CTRL_BIND ≠ h.ESP_EVENT_ESPNOW_CTRL_BIND_ERROR ∧
  h.ESP_EVENT_ESPNOW_CTRL_BIND ≠ h.ESP_EVENT_ESPNOW_CTRL_UNBIND ∧
  h.ESP_EVENT_ESPNOW_CTRL_BIND_ERROR ≠ h.ESP_EVENT_ESPNOW_CTRL_UNBIND

/-- The labels of the `switch (bind_error)` of `bind_error_to_string` are
pairwise distinct. -/
@[reducible]
def Headers.errorLabelsDistinct (h : Headers) : Prop :=
  h.ESPNOW_BIND_ERROR_NONE ≠ h.ESPNOW_BIND_ERROR_TIMEOUT ∧
  h.ESPNOW_BIND_ERROR_NONE ≠ h.ESPNOW_BIND_ERROR_RSSI ∧
  h.ESPNOW_BIND_ERROR_NONE ≠ h.ESPNOW_BIND_ERROR_LIST_FULL ∧
  h.ESPNOW_BIND_ERROR_TIMEOUT ≠ h.ESPNOW_BIND_ERROR_RSSI ∧
  h.ESPNOW_BIND_ERROR_TIMEOUT ≠ h.ESPNOW_BIND_ERROR_LIST_FULL ∧
  h.ESPNOW_BIND_ERROR_RSSI ≠ h.ESPNOW_BIND_ERROR_LIST_FULL

/-- One assignment of values to the header constants, with distinct case
labels; it instantiates the parametric results below. -/
def sampleHeaders : Headers where
  ESP_EVENT_ESPNOW := 0x3f400120
  ESP_EVENT_ESPNOW_CTRL_BIND := 0x200
  ESP_EVENT_ESPNOW_CTRL_BIND_ERROR := 0x201
  ESP_EVENT_ESPNOW_CTRL_UNBIND := 0x202
  ESPNOW_BIND_ERROR_NONE := 0
  ESPNOW_BIND_ERROR_TIMEOUT := 1
  ESPNOW_BIND_ERROR_RSSI := 2
  ESPNOW_BIND_ERROR_LIST_FULL := 3
  BUTTON_SINGLE_CLICK := 4
  ESPNOW_ATTRIBUTE_KEY_1 := 512
  ESPNOW_ATTRIBUTE_POWER := 1

/-- The structure `espnow_ctrl_bind_info_t` as far as `app_main.c` reads it: the
six bytes of `mac` and the field `initiator_attribute`. -/
structure espnow_ctrl_bind_info_t where
  mac : Fin 6 → Fin 256
  initiator_attribute : Int

/-- The memory behind the `void *event_data` argument of the event handler.
The handler casts the pointer to `espnow_ctrl_bind_info_t *` or to
`espnow_ctrl_bind_error_t *` depending on the event identifier; the two fields
are what each of the two reads yields.  The embedding covers the invocations in
which the pointer can be read; a null pointer is not represented. -/
structure EventData where
  bind_info : espnow_ctrl_bind_info_t
  bind_error : Int

/-- The two log levels used in `app_main.c` (`ESP_LOGI`, `ESP_LOGW`). -/
inductive LogLevel
  | info
  | warn
  deriving DecidableEq, Repr

/-- An observable action of the core: a log line (level, tag, and the format
string of the `ESP_LOGx` call with its arguments substituted) or a call
`espnow_ctrl_initiator_send(key, type, value)`, where `value` is the `bool`
the source passes. -/
inductive Effect
  | log (level : LogLevel) (tag : String) (text : String)
  | send (key : Int) (type : Int) (value : Bool)
  deriving DecidableEq, Repr

/-- The mutable state of the core: the global `s_espnow_ctrl_status` (line 62)
and the `static bool status` of `app_initiator_send_press_cb` (line 110). -/
structure State where
  s_espnow_ctrl_status : app_espnow_ctrl_status_t
  status : Bool
  deriving DecidableEq, Repr

/-- The state at process start: `s_espnow_ctrl_status = APP_ESPNOW_CTRL_INIT`
(line 62) and `status = 0` (line 110). -/
def State.initial : State :=
  ⟨app_espnow_ctrl_status_t.APP_ESPNOW_CTRL_INIT, false⟩

/-- What an invocation leaves behind: the state, the effects it performed in
program order, and whether it ended in `abort()` (a failed `ESP_ERROR_CHECK`)
instead of returning. -/
structure Outcome where
  state : State
  effects : List Effect
  aborted : Bool
  deriving DecidableEq, Repr

/-! ## The functions of `app_main.c` -/

/-- The log tag `TAG` (line 54). -/
def TAG : String := "app_main"

/-- The function `bind_error_to_string` (lines 65-93): a `switch` over the four
enumerators with a `default` arm. -/
def bind_error_to_string (h : Headers) (bind_error : Int) : String :=
  if bind_error = h.ESPNOW_BIND_ERROR_NONE then "No error"
  else if bind_error = h.ESPNOW_BIND_ERROR_TIMEOUT then "bind timeout"
  else if bind_error = h.ESPNOW_BIND_ERROR_RSSI then
    "bind packet RSSI below expected threshold"
  else if bind_error = h.ESPNOW_BIND_ERROR_LIST_FULL then "bindlist is full"
  else "unknown error"

/-- The C expression `a == b`, of type `int`. -/
def c_eq (a b : Int) : Int := if a = b then 1 else 0

/-- The C expression `!x`, of type `int`. -/
def c_not (x : Int) : Int := if x = 0 then 1 else 0

/-- The value `ESP_OK` of `esp_err.h`. -/
def ESP_OK : Int := 0

/-- The macro `ESP_ERROR_CHECK(x)` in its default configuration: the process
aborts when `x` differs from `ESP_OK`.  The result is `true` when it aborts.
What the macro itself prints on the way to `abort()` belongs to the abort and
is not recorded as an effect of the caller. -/
def ESP_ERROR_CHECK (x : Int) : Bool := decide (x ≠ ESP_OK)

/-- The function `app_initiator_send_press_cb` (lines 108-121).
`button_event` is the value returned by `iot_button_get_event(arg)`;
`send_ret` is the `esp_err_t` returned by `espnow_ctrl_initiator_send`, which
the callback does not look at. -/
def app_initiator_send_press_cb (h : Headers) (s : State) (button_event : Int)
    (send_ret : Int) : Outcome :=
  if ESP_ERROR_CHECK (c_not (c_eq h.BUTTON_SINGLE_CLICK button_event)) then
    ⟨s, [], true⟩
  else if s.s_espnow_ctrl_status = app_espnow_ctrl_status_t.APP_ESPNOW_CTRL_BOUND then
    let _discarded := send_ret
    ⟨{ s with status := !s.status },
      [Effect.log LogLevel.info TAG "initiator send press",
       Effect.send h.ESPNOW_ATTRIBUTE_KEY_1 h.ESPNOW_ATTRIBUTE_POWER s.status],
      false⟩
  else
    ⟨s, [Effect.log LogLevel.info TAG
          "please double click to bind the devices firstly"], false⟩

/-- The conversion `%02x` applied to a byte: two lower-case hexadecimal
digits. -/
def hex02 (b : Fin 256) : String :=
  String.mk [Nat.digitChar (b.val / 16), Nat.digitChar (b.val % 16)]

/-- The expansion of `MACSTR` with the arguments `MAC2STR(mac)`: the six bytes
as `%02x`, separated by colons. -/
def macstr (mac : Fin 6 → Fin 256) : String :=
  hex02 (mac 0) ++ ":" ++ hex02 (mac 1) ++ ":" ++ hex02 (mac 2) ++ ":" ++
  hex02 (mac 3) ++ ":" ++ hex02 (mac 4) ++ ":" ++ hex02 (mac 5)

/-- The function `app_espnow_event_handler` (lines 144-176): the guard on
`base`, then the `switch (id)` with its three cases and the empty `default`. -/
def app_espnow_event_handler (h : Headers) (s : State) (base : Nat) (id : Int)
    (event_data : EventData) : Outcome :=
  if base ≠ h.ESP_EVENT_ESPNOW then
    ⟨s, [], false⟩
  else if id = h.ESP_EVENT_ESPNOW_CTRL_BIND then
    let info := event_data.bind_info
    ⟨s, [Effect.log LogLevel.info TAG
          ("bind, uuid: " ++ macstr info.mac ++ ", initiator_type: " ++
            toString info.initiator_attribute)], false⟩
  else if id = h.ESP_EVENT_ESPNOW_CTRL_BIND_ERROR then
    let bind_error := event_data.bind_error
    ⟨s, [Effect.log LogLevel.warn TAG
          ("bind error: " ++ bind_error_to_string h bind_error)], false⟩
  else if id = h.ESP_EVENT_ESPNOW_CTRL_UNBIND then
    let info := event_data.bind_info
    ⟨s, [Effect.log LogLevel.info TAG
          ("unbind, uuid: " ++ macstr info.mac ++ ", initiator_type: " ++
            toString info.initiator_attribute)], false⟩
  else
    ⟨s, [], false⟩

/-! ## Sequences of callback invocations -/

/-- One callback invocation delivered to the core: the event loop calling
`app_espnow_event_handler`, or the button driver calling
`app_initiator_send_press_cb`. -/
inductive Input
  | espnow_event (base : Nat) (id : Int) (event_data : EventData)
  | button (button_event : Int) (send_ret : Int)

/-- Run the callback that an input is delivered to. -/
def dispatch (h : Headers) (s : State) : Input → Outcome
  | Input.espnow_event base id event_data =>
      app_espnow_event_handler h s base id event_data
  | Input.button button_event send_ret =>
      app_initiator_send_press_cb h s button_event send_ret

/-- Run a finite sequence of invocations one after the other.  The effects are
concatenated; an abort ends the process, so the remaining inputs are not
run. -/
def run (h : Headers) : State → List Input → Outcome
  | s, [] => ⟨s, [], false⟩
  | s, i :: rest =>
      let o := dispatch h s i
      if o.aborted then o
      else
        let r := run h o.state rest
        ⟨r.state, o.effects ++ r.effects, r.aborted⟩

/-- The calls to `espnow_ctrl_initiator_send` among a list of effects, as
triples (key, type, value), in order. -/
def sends : List Effect → List (Int × Int × Bool)
  | [] => []
  | Effect.send k t v :: rest => (k, t, v) :: sends rest
  | Effect.log _ _ _ :: rest => sends rest

/-- The texts of the log lines among a list of effects, in order. -/
def logTexts : List Effect → List String
  | [] => []
  | Effect.log _ _ text :: rest => text :: logTexts rest
  | Effect.send _ _ _ :: rest => logTexts rest

/-- A single click delivered to the button callback; `send_ret` is what the
transport returns if the callback submits a command. -/
def singleClick (h : Headers) (send_ret : Int) : Input :=
  Input.button h.BUTTON_SINGLE_CLICK send_ret

/-- The payload of a bind event for the peer `aa:bb:cc:dd:ee:ff` with
initiator type 1.  The handler does not read `bind_error` for this event. -/
def bindPayloadAABB : EventData :=
  ⟨⟨![0xAA, 0xBB, 0xCC, 0xDD, 0xEE, 0xFF], 1⟩, 0⟩

/-- An input the core is specified for: any invocation of the event handler,
or a button callback whose event is `BUTTON_SINGLE_CLICK` (the only event the
callback is registered for, line 136). -/
def Input.admissible (h : Headers) : Input → Bool
  | Input.espnow_event _ _ _ => true
  | Input.button button_event _ => decide (button_event = h.BUTTON_SINGLE_CLICK)

/-- The log line of the unbound branch of the button callback (line 119). -/
def pleaseBindLine : Effect :=
  Effect.log LogLevel.info TAG "please double click to bind the devices firstly"

/-- The log line of the bound branch of the button callback (line 115). -/
def sendPressLine : Effect :=
  Effect.log LogLevel.info TAG "initiator send press"

/-- The toggle after `n` flips starting from `b`. -/
def toggleAfter (b : Bool) (n : Nat) : Bool := if n % 2 = 0 then b else !b

/-- The scenario of a boot followed by a bind event for `aa:bb:cc:dd:ee:ff`
(type 1) and two single clicks; `r1`, `r2` are what the transport would return
to each click if it were called. -/
def bootBindTwoClicks (h : Headers) (r1 r2 : Int) : List Input :=
  [Input.espnow_event h.ESP_EVENT_ESPNOW h.ESP_EVENT_ESPNOW_CTRL_BIND bindPayloadAABB,
   singleClick h r1, singleClick h r2]

/-- A sequence with an unbind event, a bind-error event, a bind event, an
unrelated id, an event of a foreign base, and two single clicks. -/
def mixedInputs : List Input :=
  [Input.espnow_event sampleHeaders.ESP_EVENT_ESPNOW
     sampleHeaders.ESP_EVENT_ESPNOW_CTRL_UNBIND bindPayloadAABB,
   Input.espnow_event sampleHeaders.ESP_EVENT_ESPNOW
     sampleHeaders.ESP_EVENT_ESPNOW_CTRL_BIND_ERROR ⟨bindPayloadAABB.bind_info, 1⟩,
   singleClick sampleHeaders 0,
   Input.espnow_event sampleHeaders.ESP_EVENT_ESPNOW
     sampleHeaders.ESP_EVENT_ESPNOW_CTRL_BIND bindPayloadAABB,
   Input.espnow_event sampleHeaders.ESP_EVENT_ESPNOW 9 bindPayloadAABB,
   Input.espnow_event 17 sampleHeaders.ESP_EVENT_ESPNOW_CTRL_BIND bindPayloadAABB,
   singleClick sampleHeaders (-1)]

/-- A second mixed sequence: two bind events, clicks in between, an unbind
event and a bind-error event. -/
def bindHeavyInputs : List Input :=
  [Input.espnow_event sampleHeaders.ESP_EVENT_ESPNOW
     sampleHeaders.ESP_EVENT_ESPNOW_CTRL_BIND bindPayloadAABB,
   singleClick sampleHeaders 0,
   Input.espnow_event sampleHeaders.ESP_EVENT_ESPNOW
     sampleHeaders.ESP_EVENT_ESPNOW_CTRL_BIND bindPayloadAABB,
   singleClick sampleHeaders 0,
   Input.espnow_event sampleHeaders.ESP_EVENT_ESPNOW
     sampleHeaders.ESP_EVENT_ESPNOW_CTRL_UNBIND bindPayloadAABB,
   Input.espnow_event sampleHeaders.ESP_EVENT_ESPNOW
     sampleHeaders.ESP_EVENT_ESPNOW_CTRL_BIND_ERROR ⟨bindPayloadAABB.bind_info, 3⟩,
   singleClick sampleHeaders 0]

/-! ## Basic facts about the three functions -/

theorem esp_error_check_click_iff (h : Headers) (button_event : Int) :
    ESP_ERROR_CHECK (c_not (c_eq h.BUTTON_SINGLE_CLICK button_event)) = true ↔
      button_event ≠ h.BUTTON_SINGLE_CLICK := by
  unfold ESP_ERROR_CHECK c_not c_eq ESP_OK
  by_cases hev : h.BUTTON_SINGLE_CLICK = button_event
  · simp [hev]
  · have hne : button_event ≠ h.BUTTON_SINGLE_CLICK := fun e => hev e.symm
    simp [hev, hne]

theorem esp_error_check_single_click (h : Headers) :
    ESP_ERROR_CHECK (c_not (c_eq h.BUTTON_SINGLE_CLICK h.BUTTON_SINGLE_CLICK)) = false := by
  unfold ESP_ERROR_CHECK c_not c_eq ESP_OK
  simp

theorem press_cb_click_not_bound (h : Headers) (s : State) (send_ret : Int)
    (hs : s.s_espnow_ctrl_status ≠ app_espnow_ctrl_status_t.APP_ESPNOW_CTRL_BOUND) :
    app_initiator_send_press_cb h s h.BUTTON_SINGLE_CLICK send_ret =
      ⟨s, [pleaseBindLine], false⟩ := by
  unfold app_initiator_send_press_cb
  rw [esp_error_check_single_click]
  simp [hs, pleaseBindLine]

theorem press_cb_click_bound (h : Headers) (s : State) (send_ret : Int)
    (hs : s.s_espnow_ctrl_status = app_espnow_ctrl_status_t.APP_ESPNOW_CTRL_BOUND) :
    app_initiator_send_press_cb h s h.BUTTON_SINGLE_CLICK send_ret =
      ⟨⟨app_espnow_ctrl_status_t.APP_ESPNOW_CTRL_BOUND, !s.status⟩,
        [sendPressLine,
         Effect.send h.ESPNOW_ATTRIBUTE_KEY_1 h.ESPNOW_ATTRIBUTE_POWER s.status],
        false⟩ := by
  unfold app_initiator_send_press_cb
  rw [esp_error_check_single_click]
  simp [hs, sendPressLine]

theorem press_cb_wrong_event (h : Headers) (s : State) (button_event send_ret : Int)
    (hev : button_event ≠ h.BUTTON_SINGLE_CLICK) :
    app_initiator_send_press_cb h s button_event send_ret = ⟨s, [], true⟩ := by
  unfold app_initiator_send_press_cb
  rw [(esp_error_check_click_iff h button_event).mpr hev]
  simp

theorem handler_frame (h : Headers) (s : State) (base : Nat) (id : Int)
    (event_data : EventData) :
    (app_espnow_event_handler h s base id event_data).state = s ∧
    (app_espnow_event_handler h s base id event_data).aborted = false ∧
    sends (app_espnow_event_handler h s base id event_data).effects = [] := by
  unfold app_espnow_event_handler
  split_ifs <;> simp [sends]

theorem handler_bind_case (h : Headers) (s : State) (event_data : EventData) :
    app_espnow_event_handler h s h.ESP_EVENT_ESPNOW h.ESP_EVENT_ESPNOW_CTRL_BIND event_data =
      ⟨s, [Effect.log LogLevel.info TAG
            ("bind, uuid: " ++ macstr event_data.bind_info.mac ++ ", initiator_type: " ++
              toString event_data.bind_info.initiator_attribute)], false⟩ := by
  unfold app_espnow_event_handler
  simp

theorem sends_append (xs ys : List Effect) : sends (xs ++ ys) = sends xs ++ sends ys := by
  induction xs with
  | nil => rfl
  | cons x rest ih =>
      cases x with
      | log l t m => simpa [sends] using ih
      | send k t v => simpa [sends] using ih

theorem dispatch_keeps_binding_status (h : Headers) (s : State) (i : Input) :
    (dispatch h s i).state.s_espnow_ctrl_status = s.s_espnow_ctrl_status := by
  cases i with
  | espnow_event base id event_data =>
      simp [dispatch, (handler_frame h s base id event_data).1]
  | button button_event send_ret =>
      simp only [dispatch]
      unfold app_initiator_send_press_cb
      split_ifs <;> rfl

theorem run_keeps_binding_status (h : Headers) (inputs : List Input) :
    ∀ s : State, (run h s inputs).state.s_espnow_ctrl_status = s.s_espnow_ctrl_status := by
  induction inputs with
  | nil => intro s; rfl
  | cons i rest ih =>
      intro s
      unfold run
      by_cases hab : (dispatch h s i).aborted = true
      · simp [hab, dispatch_keeps_binding_status]
      · simp [hab, ih, dispatch_keeps_binding_status]

theorem dispatch_admissible_returns (h : Headers) (s : State) (i : Input)
    (hadm : Input.admissible h i = true) : (dispatch h s i).aborted = false := by
  cases i with
  | espnow_event base id event_data =>
      simp [dispatch, (handler_frame h s base id event_data).2.1]
  | button button_event send_ret =>
      have hev : button_event = h.BUTTON_SINGLE_CLICK := by
        simpa [Input.admissible] using hadm
      subst hev
      simp only [dispatch]
      by_cases hs : s.s_espnow_ctrl_status = app_espnow_ctrl_status_t.APP_ESPNOW_CTRL_BOUND
      · rw [press_cb_click_bound h s send_ret hs]
      · rw [press_cb_click_not_bound h s send_ret hs]

theorem run_admissible_returns (h : Headers) (inputs : List Input) :
    ∀ s : State, inputs.all (Input.admissible h) = true →
      (run h s inputs).aborted = false := by
  induction inputs with
  | nil => intro s _; rfl
  | cons i rest ih =>
      intro s hall
      have hi : Input.admissible h i = true := by
        simp only [List.all_cons, Bool.and_eq_true] at hall
        exact hall.1
      have hrest : rest.all (Input.admissible h) = true := by
        simp only [List.all_cons, Bool.and_eq_true] at hall
        exact hall.2
      unfold run
      simp [dispatch_admissible_returns h s i hi, ih _ hrest]

theorem dispatch_not_bound (h : Headers) (s : State) (i : Input)
    (hs : s.s_espnow_ctrl_status ≠ app_espnow_ctrl_status_t.APP_ESPNOW_CTRL_BOUND) :
    (dispatch h s i).state = s ∧ sends (dispatch h s i).effects = [] := by
  cases i with
  | espnow_event base id event_data =>
      exact ⟨(handler_frame h s base id event_data).1,
        (handler_frame h s base id event_data).2.2⟩
  | button button_event send_ret =>
      simp only [dispatch]
      unfold app_initiator_send_press_cb
      split_ifs <;> simp [sends]

theorem run_not_bound (h : Headers) (inputs : List Input) (s : State)
    (hs : s.s_espnow_ctrl_status ≠ app_espnow_ctrl_status_t.APP_ESPNOW_CTRL_BOUND) :
    (run h s inputs).state = s ∧ sends (run h s inputs).effects = [] := by
  induction inputs with
  | nil => exact ⟨rfl, rfl⟩
  | cons i rest ih =>
      obtain ⟨hst, hsd⟩ := dispatch_not_bound h s i hs
      unfold run
      by_cases hab : (dispatch h s i).aborted = true
      · simp [hab, hst, hsd]
      · simp [hab, hst, hsd, sends_append, ih.1, ih.2]

theorem run_clicks_not_bound (h : Headers) (s : State)
    (hs : s.s_espnow_ctrl_status ≠ app_espnow_ctrl_status_t.APP_ESPNOW_CTRL_BOUND)
    (rets : List Int) :
    run h s (rets.map (singleClick h)) =
      ⟨s, List.replicate rets.length pleaseBindLine, false⟩ := by
  induction rets with
  | nil => rfl
  | cons r rest ih =>
      simp only [List.map_cons, List.length_cons, List.replicate_succ]
      unfold run
      simp only [singleClick, dispatch] at ih ⊢
      rw [press_cb_click_not_bound h s r hs]
      simp [ih]

theorem toggleAfter_succ (b : Bool) (n : Nat) :
    toggleAfter (!b) n = toggleAfter b (n + 1) := by
  unfold toggleAfter
  by_cases hn : n % 2 = 0
  · have h1 : ¬ (n + 1) % 2 = 0 := by omega
    simp [hn, h1]
  · have h1 : (n + 1) % 2 = 0 := by omega
    simp [hn, h1]

theorem run_clicks_bound (h : Headers) (rets : List Int) :
    ∀ b : Bool,
      (run h ⟨app_espnow_ctrl_status_t.APP_ESPNOW_CTRL_BOUND, b⟩
          (rets.map (singleClick h))).state =
        ⟨app_espnow_ctrl_status_t.APP_ESPNOW_CTRL_BOUND, toggleAfter b rets.length⟩ ∧
      (run h ⟨app_espnow_ctrl_status_t.APP_ESPNOW_CTRL_BOUND, b⟩
          (rets.map (singleClick h))).aborted = false ∧
      sends (run h ⟨app_espnow_ctrl_status_t.APP_ESPNOW_CTRL_BOUND, b⟩
          (rets.map (singleClick h))).effects =
        (List.range rets.length).map
          (fun i => (h.ESPNOW_ATTRIBUTE_KEY_1, h.ESPNOW_ATTRIBUTE_POWER, toggleAfter b i)) := by
  induction rets with
  | nil =>
      intro b
      refine ⟨?_, rfl, rfl⟩
      simp [run, toggleAfter]
  | cons r rest ih =>
      intro b
      obtain ⟨ihs, iha, ihe⟩ := ih (!b)
      simp only [List.map_cons, List.length_cons]
      unfold run
      simp only [singleClick, dispatch] at ihs iha ihe ⊢
      rw [press_cb_click_bound h ⟨app_espnow_ctrl_status_t.APP_ESPNOW_CTRL_BOUND, b⟩ r rfl]
      simp only [Bool.false_eq_true, if_false]
      refine ⟨?_, iha, ?_⟩
      · rw [ihs, toggleAfter_succ]
      · rw [sends_append, ihe, List.range_succ_eq_map]
        simp only [sends, sendPressLine, List.map_cons, List.map_map, List.cons_append,
          List.nil_append, List.map_nil]
        have h0 : toggleAfter b 0 = b := by simp [toggleAfter]
        rw [h0]
        congr 1
        apply List.map_congr_left
        intro i _
        simp [toggleAfter_succ]

theorem bind_line_AABB :
    "bind, uuid: " ++ macstr bindPayloadAABB.bind_info.mac ++ ", initiator_type: " ++
      toString bindPayloadAABB.bind_info.initiator_attribute =
    "bind, uuid: aa:bb:cc:dd:ee:ff, initiator_type: 1" := by
  decide

/-! ## The bind event (C1, C2) -/

/-- C1, as stated, fails: from the initial state one bind event delivered to
`app_espnow_event_handler` leaves `s_espnow_ctrl_status` different from
`APP_ESPNOW_CTRL_BOUND`. -/
theorem bind_event_does_not_reach_bound :
    (app_espnow_event_handler sampleHeaders State.initial sampleHeaders.ESP_EVENT_ESPNOW
        sampleHeaders.ESP_EVENT_ESPNOW_CTRL_BIND bindPayloadAABB).state.s_espnow_ctrl_status
      ≠ app_espnow_ctrl_status_t.APP_ESPNOW_CTRL_BOUND := by
  decide

/-- C1 (amended): handling one bind event (base `ESP_EVENT_ESPNOW`, id
`ESP_EVENT_ESPNOW_CTRL_BIND`, any payload) returns with the state unchanged and
exactly one info log line naming the peer and its initiator type; from the
initial state `s_espnow_ctrl_status` is therefore still
`APP_ESPNOW_CTRL_INIT`. -/
theorem bind_event_only_logs (h : Headers) (s : State) (event_data : EventData) :
    app_espnow_event_handler h s h.ESP_EVENT_ESPNOW h.ESP_EVENT_ESPNOW_CTRL_BIND event_data =
      ⟨s, [Effect.log LogLevel.info TAG
            ("bind, uuid: " ++ macstr event_data.bind_info.mac ++ ", initiator_type: " ++
              toString event_data.bind_info.initiator_attribute)], false⟩ ∧
    (app_espnow_event_handler h State.initial h.ESP_EVENT_ESPNOW
        h.ESP_EVENT_ESPNOW_CTRL_BIND event_data).state.s_espnow_ctrl_status =
      app_espnow_ctrl_status_t.APP_ESPNOW_CTRL_INIT := by
  constructor
  · exact handler_bind_case h s event_data
  · rw [(handler_frame h State.initial _ _ event_data).1]
    rfl

/-- C2, as stated, fails: after boot, a bind event for `aa:bb:cc:dd:ee:ff`
(type 1) and two single clicks, the submitted commands are not the two
commands (key 1, power, false), (key 1, power, true): none was submitted. -/
theorem boot_bind_two_clicks_not_two_sends :
    sends (run sampleHeaders State.initial (bootBindTwoClicks sampleHeaders 0 0)).effects ≠
      [(sampleHeaders.ESPNOW_ATTRIBUTE_KEY_1, sampleHeaders.ESPNOW_ATTRIBUTE_POWER, false),
       (sampleHeaders.ESPNOW_ATTRIBUTE_KEY_1, sampleHeaders.ESPNOW_ATTRIBUTE_POWER, true)] := by
  decide

/-- C2 (amended): after boot, a bind event for `aa:bb:cc:dd:ee:ff` (type 1)
and two single clicks, all three callbacks have returned, the state is still the
initial one (`APP_ESPNOW_CTRL_INIT`, toggle `false`), no command was submitted,
and the log holds the bind line followed by one "please double click to bind
the devices firstly" line per click. -/
theorem boot_bind_two_clicks_no_send (h : Headers) (r1 r2 : Int) :
    run h State.initial (bootBindTwoClicks h r1 r2) =
      ⟨State.initial,
        [Effect.log LogLevel.info TAG "bind, uuid: aa:bb:cc:dd:ee:ff, initiator_type: 1",
         pleaseBindLine, pleaseBindLine],
        false⟩ ∧
    sends (run h State.initial (bootBindTwoClicks h r1 r2)).effects = [] := by
  have hinit : State.initial.s_espnow_ctrl_status ≠
      app_espnow_ctrl_status_t.APP_ESPNOW_CTRL_BOUND := by decide
  have hrun : run h State.initial (bootBindTwoClicks h r1 r2) =
      ⟨State.initial,
        [Effect.log LogLevel.info TAG "bind, uuid: aa:bb:cc:dd:ee:ff, initiator_type: 1",
         pleaseBindLine, pleaseBindLine],
        false⟩ := by
    have hclicks := run_clicks_not_bound h State.initial hinit [r1, r2]
    simp only [List.map_cons, List.map_nil] at hclicks
    unfold bootBindTwoClicks run
    simp only [dispatch]
    rw [handler_bind_case h State.initial bindPayloadAABB, bind_line_AABB]
    simp [hclicks]
  exact ⟨hrun, (run_not_bound h _ State.initial hinit).2⟩

/-! ## Clicks while unbound (C3) -/

/-- C3: while `s_espnow_ctrl_status = APP_ESPNOW_CTRL_INIT`, any finite sequence
of single clicks delivered to `app_initiator_send_press_cb` returns every time,
leaves the state (binding status and toggle) as it was, submits no command, and
logs exactly one line per click, the line "please double click to bind the
devices firstly". -/
theorem clicks_while_unbound (h : Headers) (s : State)
    (hs : s.s_espnow_ctrl_status = app_espnow_ctrl_status_t.APP_ESPNOW_CTRL_INIT)
    (rets : List Int) :
    run h s (rets.map (singleClick h)) =
      ⟨s, List.replicate rets.length
            (Effect.log LogLevel.info TAG "please double click to bind the devices firstly"),
        false⟩ ∧
    sends (run h s (rets.map (singleClick h))).effects = [] ∧
    logTexts (run h s (rets.map (singleClick h))).effects =
      List.replicate rets.length "please double click to bind the devices firstly" := by
  have hnb : s.s_espnow_ctrl_status ≠ app_espnow_ctrl_status_t.APP_ESPNOW_CTRL_BOUND := by
    rw [hs]; decide
  have hrun := run_clicks_not_bound h s hnb rets
  refine ⟨hrun, (run_not_bound h _ s hnb).2, ?_⟩
  rw [hrun]
  simp only [pleaseBindLine]
  induction rets.length with
  | zero => rfl
  | succ n ih => simp [List.replicate_succ, logTexts, ih]

/-- An instance of `clicks_while_unbound`: three single clicks from the initial
state. -/
theorem clicks_while_unbound_witness :
    State.initial.s_espnow_ctrl_status = app_espnow_ctrl_status_t.APP_ESPNOW_CTRL_INIT ∧
    (run sampleHeaders State.initial ([0, -1, 7].map (singleClick sampleHeaders)) =
      ⟨State.initial, List.replicate ([0, -1, 7] : List Int).length
            (Effect.log LogLevel.info TAG "please double click to bind the devices firstly"),
        false⟩ ∧
    sends (run sampleHeaders State.initial
      ([0, -1, 7].map (singleClick sampleHeaders))).effects = [] ∧
    logTexts (run sampleHeaders State.initial
      ([0, -1, 7].map (singleClick sampleHeaders))).effects =
      List.replicate ([0, -1, 7] : List Int).length
        "please double click to bind the devices firstly") :=
  ⟨rfl, clicks_while_unbound sampleHeaders State.initial rfl [0, -1, 7]⟩

/-! ## Clicks while bound (C4) -/

/-- C4: with `s_espnow_ctrl_status = APP_ESPNOW_CTRL_BOUND` and the toggle at
`false`, for every `N ≥ 1` and whatever the transport returned to the first
`N - 1` clicks (`rets`) and returns to the `N`-th (`r`): the first `N - 1`
clicks all return, and the `N`-th click returns after logging "initiator send
press" and submitting (key 1, power, v) with `v = false` when
`(N - 1) mod 2 = 0` and `v = true` otherwise, leaving the toggle at `!v`; the
`N` submissions of the whole run alternate from `false`. -/
theorem nth_click_while_bound (h : Headers) (N : Nat) (hN : 1 ≤ N) (rets : List Int)
    (hlen : rets.length = N - 1) (r : Int) :
    (run h ⟨app_espnow_ctrl_status_t.APP_ESPNOW_CTRL_BOUND, false⟩
        (rets.map (singleClick h))).aborted = false ∧
    app_initiator_send_press_cb h
        (run h ⟨app_espnow_ctrl_status_t.APP_ESPNOW_CTRL_BOUND, false⟩
          (rets.map (singleClick h))).state
        h.BUTTON_SINGLE_CLICK r =
      ⟨⟨app_espnow_ctrl_status_t.APP_ESPNOW_CTRL_BOUND,
          !(if (N - 1) % 2 = 0 then false else true)⟩,
        [Effect.log LogLevel.info TAG "initiator send press",
         Effect.send h.ESPNOW_ATTRIBUTE_KEY_1 h.ESPNOW_ATTRIBUTE_POWER
           (if (N - 1) % 2 = 0 then false else true)],
        false⟩ ∧
    sends (run h ⟨app_espnow_ctrl_status_t.APP_ESPNOW_CTRL_BOUND, false⟩
        ((rets ++ [r]).map (singleClick h))).effects =
      (List.range N).map
        (fun i => (h.ESPNOW_ATTRIBUTE_KEY_1, h.ESPNOW_ATTRIBUTE_POWER,
          if i % 2 = 0 then false else true)) := by
  obtain ⟨hst, hab, _⟩ := run_clicks_bound h rets false
  obtain ⟨_, _, hsd⟩ := run_clicks_bound h (rets ++ [r]) false
  have hlen2 : (rets ++ [r]).length = N := by
    rw [List.length_append, hlen]
    simp only [List.length_singleton]
    omega
  have htog : ∀ n : Nat, toggleAfter false n = (if n % 2 = 0 then false else true) := by
    intro n
    simp [toggleAfter]
  refine ⟨hab, ?_, ?_⟩
  · rw [hst, press_cb_click_bound h _ r rfl, hlen, htog]
    rfl
  · rw [hsd, hlen2]
    apply List.map_congr_left
    intro i _
    rw [htog]

/-- An instance of `nth_click_while_bound`: the third click while bound. -/
theorem nth_click_while_bound_witness :
    1 ≤ 3 ∧ ([0, -1] : List Int).length = 3 - 1 ∧
    ((run sampleHeaders ⟨app_espnow_ctrl_status_t.APP_ESPNOW_CTRL_BOUND, false⟩
        ([0, -1].map (singleClick sampleHeaders))).aborted = false ∧
    app_initiator_send_press_cb sampleHeaders
        (run sampleHeaders ⟨app_espnow_ctrl_status_t.APP_ESPNOW_CTRL_BOUND, false⟩
          ([0, -1].map (singleClick sampleHeaders))).state
        sampleHeaders.BUTTON_SINGLE_CLICK 258 =
      ⟨⟨app_espnow_ctrl_status_t.APP_ESPNOW_CTRL_BOUND,
          !(if (3 - 1) % 2 = 0 then false else true)⟩,
        [Effect.log LogLevel.info TAG "initiator send press",
         Effect.send sampleHeaders.ESPNOW_ATTRIBUTE_KEY_1 sampleHeaders.ESPNOW_ATTRIBUTE_POWER
           (if (3 - 1) % 2 = 0 then false else true)],
        false⟩ ∧
    sends (run sampleHeaders ⟨app_espnow_ctrl_status_t.APP_ESPNOW_CTRL_BOUND, false⟩
        (([0, -1] ++ [258]).map (singleClick sampleHeaders))).effects =
      (List.range 3).map
        (fun i => (sampleHeaders.ESPNOW_ATTRIBUTE_KEY_1, sampleHeaders.ESPNOW_ATTRIBUTE_POWER,
          if i % 2 = 0 then false else true))) :=
  ⟨by decide, by decide,
    nth_click_while_bound sampleHeaders 3 (by decide) [0, -1] (by decide) 258⟩

/-! ## The error table (C5) -/

/-- C5: `bind_error_to_string` is defined on every integer error code and, the
four enumerators being distinct, returns "No error" for `ESPNOW_BIND_ERROR_NONE`,
"bind timeout" for `ESPNOW_BIND_ERROR_TIMEOUT`, "bind packet RSSI below expected
threshold" for `ESPNOW_BIND_ERROR_RSSI`, "bindlist is full" for
`ESPNOW_BIND_ERROR_LIST_FULL`, and "unknown error" for the code `e` when it is
none of the four. -/
theorem bind_error_to_string_table (h : Headers) (hd : h.errorLabelsDistinct) (e : Int)
    (he : e ≠ h.ESPNOW_BIND_ERROR_NONE ∧ e ≠ h.ESPNOW_BIND_ERROR_TIMEOUT ∧
      e ≠ h.ESPNOW_BIND_ERROR_RSSI ∧ e ≠ h.ESPNOW_BIND_ERROR_LIST_FULL) :
    bind_error_to_string h h.ESPNOW_BIND_ERROR_NONE = "No error" ∧
    bind_error_to_string h h.ESPNOW_BIND_ERROR_TIMEOUT = "bind timeout" ∧
    bind_error_to_string h h.ESPNOW_BIND_ERROR_RSSI =
      "bind packet RSSI below expected threshold" ∧
    bind_error_to_string h h.ESPNOW_BIND_ERROR_LIST_FULL = "bindlist is full" ∧
    bind_error_to_string h e = "unknown error" := by
  obtain ⟨h01, h02, h03, h12, h13, h23⟩ := hd
  obtain ⟨e0, e1, e2, e3⟩ := he
  unfold bind_error_to_string
  refine ⟨?_, ?_, ?_, ?_, ?_⟩
  · simp
  · simp [h01.symm]
  · simp [h02.symm, h12.symm]
  · simp [h03.symm, h13.symm, h23.symm]
  · simp [e0, e1, e2, e3]

/-- An instance of `bind_error_to_string_table`: the sample enumerators and the
unlisted code `-7`. -/
theorem bind_error_to_string_table_witness :
    sampleHeaders.errorLabelsDistinct ∧
    ((-7 : Int) ≠ sampleHeaders.ESPNOW_BIND_ERROR_NONE ∧
      (-7 : Int) ≠ sampleHeaders.ESPNOW_BIND_ERROR_TIMEOUT ∧
      (-7 : Int) ≠ sampleHeaders.ESPNOW_BIND_ERROR_RSSI ∧
      (-7 : Int) ≠ sampleHeaders.ESPNOW_BIND_ERROR_LIST_FULL) ∧
    (bind_error_to_string sampleHeaders sampleHeaders.ESPNOW_BIND_ERROR_NONE = "No error" ∧
    bind_error_to_string sampleHeaders sampleHeaders.ESPNOW_BIND_ERROR_TIMEOUT =
      "bind timeout" ∧
    bind_error_to_string sampleHeaders sampleHeaders.ESPNOW_BIND_ERROR_RSSI =
      "bind packet RSSI below expected threshold" ∧
    bind_error_to_string sampleHeaders sampleHeaders.ESPNOW_BIND_ERROR_LIST_FULL =
      "bindlist is full" ∧
    bind_error_to_string sampleHeaders (-7) = "unknown error") :=
  ⟨by decide, by decide, bind_error_to_string_table sampleHeaders (by decide) (-7) (by decide)⟩

/-! ## Events of another category (C6) -/

/-- C6: for every state, event id and payload, an event whose base is not
`ESP_EVENT_ESPNOW` makes `app_espnow_event_handler` return with the state
(binding status and toggle) unchanged, no log line and no command, whatever the
id is. -/
theorem foreign_base_is_dropped (h : Headers) (s : State) (base : Nat) (id : Int)
    (event_data : EventData) (hbase : base ≠ h.ESP_EVENT_ESPNOW) :
    app_espnow_event_handler h s base id event_data = ⟨s, [], false⟩ := by
  unfold app_espnow_event_handler
  simp [hbase]

/-- An instance of `foreign_base_is_dropped`: a bind id under a foreign base. -/
theorem foreign_base_is_dropped_witness :
    (17 : Nat) ≠ sampleHeaders.ESP_EVENT_ESPNOW ∧
    app_espnow_event_handler sampleHeaders
        ⟨app_espnow_ctrl_status_t.APP_ESPNOW_CTRL_BOUND, true⟩ 17
        sampleHeaders.ESP_EVENT_ESPNOW_CTRL_BIND bindPayloadAABB =
      ⟨⟨app_espnow_ctrl_status_t.APP_ESPNOW_CTRL_BOUND, true⟩, [], false⟩ :=
  ⟨by decide,
    foreign_base_is_dropped sampleHeaders ⟨app_espnow_ctrl_status_t.APP_ESPNOW_CTRL_BOUND, true⟩
      17 sampleHeaders.ESP_EVENT_ESPNOW_CTRL_BIND bindPayloadAABB (by decide)⟩

/-! ## The bind-error event (C7) -/

/-- C7, as stated, fails: a bind-error event carrying `ESPNOW_BIND_ERROR_RSSI`,
handled in the initial state, logs the line "bind error: bind packet RSSI below
expected threshold", which is not the table message "bind packet RSSI below
expected threshold" itself. -/
theorem rssi_line_is_not_bare_message :
    logTexts (app_espnow_event_handler sampleHeaders State.initial
        sampleHeaders.ESP_EVENT_ESPNOW sampleHeaders.ESP_EVENT_ESPNOW_CTRL_BIND_ERROR
        ⟨bindPayloadAABB.bind_info, sampleHeaders.ESPNOW_BIND_ERROR_RSSI⟩).effects =
      ["bind error: bind packet RSSI below expected threshold"] ∧
    logTexts (app_espnow_event_handler sampleHeaders State.initial
        sampleHeaders.ESP_EVENT_ESPNOW sampleHeaders.ESP_EVENT_ESPNOW_CTRL_BIND_ERROR
        ⟨bindPayloadAABB.bind_info, sampleHeaders.ESPNOW_BIND_ERROR_RSSI⟩).effects ≠
      ["bind packet RSSI below expected threshold"] := by
  decide

/-- C7 (amended): for every state and every error code, handling a bind-error
event returns with the state unchanged and exactly one warning log line, whose
text is "bind error: " followed by the message `bind_error_to_string` gives for
the code; for the code `ESPNOW_BIND_ERROR_RSSI` in the initial state the state
stays initial and the text is "bind error: bind packet RSSI below expected
threshold". -/
theorem bind_error_event_logs_warning (h : Headers) (hev : h.eventLabelsDistinct)
    (herr : h.errorLabelsDistinct) (s : State) (event_data : EventData)
    (info : espnow_ctrl_bind_info_t) :
    app_espnow_event_handler h s h.ESP_EVENT_ESPNOW h.ESP_EVENT_ESPNOW_CTRL_BIND_ERROR
        event_data =
      ⟨s, [Effect.log LogLevel.warn TAG
            ("bind error: " ++ bind_error_to_string h event_data.bind_error)], false⟩ ∧
    app_espnow_event_handler h State.initial h.ESP_EVENT_ESPNOW
        h.ESP_EVENT_ESPNOW_CTRL_BIND_ERROR ⟨info, h.ESPNOW_BIND_ERROR_RSSI⟩ =
      ⟨State.initial, [Effect.log LogLevel.warn TAG
            "bind error: bind packet RSSI below expected threshold"], false⟩ := by
  obtain ⟨hbe, _, _⟩ := hev
  obtain ⟨_, h02, _, h12, _, _⟩ := herr
  have hgen : ∀ (t : State) (d : EventData),
      app_espnow_event_handler h t h.ESP_EVENT_ESPNOW h.ESP_EVENT_ESPNOW_CTRL_BIND_ERROR d =
        ⟨t, [Effect.log LogLevel.warn TAG
              ("bind error: " ++ bind_error_to_string h d.bind_error)], false⟩ := by
    intro t d
    unfold app_espnow_event_handler
    simp [hbe.symm]
  refine ⟨hgen s event_data, ?_⟩
  rw [hgen]
  have hmsg : bind_error_to_string h h.ESPNOW_BIND_ERROR_RSSI =
      "bind packet RSSI below expected threshold" := by
    unfold bind_error_to_string
    simp [h02.symm, h12.symm]
  simp only [hmsg]
  rfl

/-- An instance of `bind_error_event_logs_warning`: a timeout error while bound,
and the RSSI error in the initial state. -/
theorem bind_error_event_logs_warning_witness :
    sampleHeaders.eventLabelsDistinct ∧ sampleHeaders.errorLabelsDistinct ∧
    (app_espnow_event_handler sampleHeaders
        ⟨app_espnow_ctrl_status_t.APP_ESPNOW_CTRL_BOUND, true⟩
        sampleHeaders.ESP_EVENT_ESPNOW sampleHeaders.ESP_EVENT_ESPNOW_CTRL_BIND_ERROR
        ⟨bindPayloadAABB.bind_info, 1⟩ =
      ⟨⟨app_espnow_ctrl_status_t.APP_ESPNOW_CTRL_BOUND, true⟩,
        [Effect.log LogLevel.warn TAG
            ("bind error: " ++
              bind_error_to_string sampleHeaders
                (EventData.mk bindPayloadAABB.bind_info 1).bind_error)], false⟩ ∧
    app_espnow_event_handler sampleHeaders State.initial sampleHeaders.ESP_EVENT_ESPNOW
        sampleHeaders.ESP_EVENT_ESPNOW_CTRL_BIND_ERROR
        ⟨bindPayloadAABB.bind_info, sampleHeaders.ESPNOW_BIND_ERROR_RSSI⟩ =
      ⟨State.initial, [Effect.log LogLevel.warn TAG
            "bind error: bind packet RSSI below expected threshold"], false⟩) :=
  ⟨by decide, by decide,
    bind_error_event_logs_warning sampleHeaders (by decide) (by decide)
      ⟨app_espnow_ctrl_status_t.APP_ESPNOW_CTRL_BOUND, true⟩
      ⟨bindPayloadAABB.bind_info, 1⟩ bindPayloadAABB.bind_info⟩

/-! ## The bound status is absorbing (C8) -/

/-- C8: from a state with `s_espnow_ctrl_status = APP_ESPNOW_CTRL_BOUND`, any
finite sequence of event-handler invocations (any base, id and payload) and of
single clicks returns every time and ends with `s_espnow_ctrl_status` still
`APP_ESPNOW_CTRL_BOUND`; an unbind event returns with the state unchanged and
one info log line naming the peer. -/
theorem bound_is_absorbing (h : Headers) (hev : h.eventLabelsDistinct) (s : State)
    (hs : s.s_espnow_ctrl_status = app_espnow_ctrl_status_t.APP_ESPNOW_CTRL_BOUND)
    (inputs : List Input) (hadm : inputs.all (Input.admissible h) = true)
    (event_data : EventData) :
    (run h s inputs).aborted = false ∧
    (run h s inputs).state.s_espnow_ctrl_status =
      app_espnow_ctrl_status_t.APP_ESPNOW_CTRL_BOUND ∧
    app_espnow_event_handler h s h.ESP_EVENT_ESPNOW h.ESP_EVENT_ESPNOW_CTRL_UNBIND event_data =
      ⟨s, [Effect.log LogLevel.info TAG
            ("unbind, uuid: " ++ macstr event_data.bind_info.mac ++ ", initiator_type: " ++
              toString event_data.bind_info.initiator_attribute)], false⟩ := by
  obtain ⟨_, hbu, heu⟩ := hev
  refine ⟨run_admissible_returns h inputs s hadm, ?_, ?_⟩
  · rw [run_keeps_binding_status h inputs s, hs]
  · unfold app_espnow_event_handler
    simp [hbu.symm, heu.symm]

/-- An instance of `bound_is_absorbing`: the sequence `mixedInputs` from a bound
state. -/
theorem bound_is_absorbing_witness :
    sampleHeaders.eventLabelsDistinct ∧
    (State.mk app_espnow_ctrl_status_t.APP_ESPNOW_CTRL_BOUND false).s_espnow_ctrl_status =
      app_espnow_ctrl_status_t.APP_ESPNOW_CTRL_BOUND ∧
    mixedInputs.all (Input.admissible sampleHeaders) = true ∧
    ((run sampleHeaders ⟨app_espnow_ctrl_status_t.APP_ESPNOW_CTRL_BOUND, false⟩
        mixedInputs).aborted = false ∧
    (run sampleHeaders ⟨app_espnow_ctrl_status_t.APP_ESPNOW_CTRL_BOUND, false⟩
        mixedInputs).state.s_espnow_ctrl_status =
      app_espnow_ctrl_status_t.APP_ESPNOW_CTRL_BOUND ∧
    app_espnow_event_handler sampleHeaders
        ⟨app_espnow_ctrl_status_t.APP_ESPNOW_CTRL_BOUND, false⟩
        sampleHeaders.ESP_EVENT_ESPNOW sampleHeaders.ESP_EVENT_ESPNOW_CTRL_UNBIND
        bindPayloadAABB =
      ⟨⟨app_espnow_ctrl_status_t.APP_ESPNOW_CTRL_BOUND, false⟩,
        [Effect.log LogLevel.info TAG
            ("unbind, uuid: " ++ macstr bindPayloadAABB.bind_info.mac ++
              ", initiator_type: " ++
              toString bindPayloadAABB.bind_info.initiator_attribute)], false⟩) :=
  ⟨by decide, rfl, by decide,
    bound_is_absorbing sampleHeaders (by decide)
      ⟨app_espnow_ctrl_status_t.APP_ESPNOW_CTRL_BOUND, false⟩ rfl mixedInputs (by decide)
      bindPayloadAABB⟩

/-! ## The contract check of the button callback (C9) -/

/-- C9: `app_initiator_send_press_cb` aborts exactly when the delivered button
event is not `BUTTON_SINGLE_CLICK`; when it aborts, in any state, nothing has
been logged or submitted and the state (binding status and toggle) is as it
was. -/
theorem press_cb_aborts_iff_wrong_event (h : Headers) (s : State)
    (button_event send_ret : Int) :
    ((app_initiator_send_press_cb h s button_event send_ret).aborted = true ↔
      button_event ≠ h.BUTTON_SINGLE_CLICK) ∧
    ((app_initiator_send_press_cb h s button_event send_ret).aborted = true →
      app_initiator_send_press_cb h s button_event send_ret = ⟨s, [], true⟩) := by
  have hiff : (app_initiator_send_press_cb h s button_event send_ret).aborted = true ↔
      button_event ≠ h.BUTTON_SINGLE_CLICK := by
    constructor
    · intro hab hev
      subst hev
      by_cases hs : s.s_espnow_ctrl_status = app_espnow_ctrl_status_t.APP_ESPNOW_CTRL_BOUND
      · rw [press_cb_click_bound h s send_ret hs] at hab
        exact Bool.false_ne_true hab
      · rw [press_cb_click_not_bound h s send_ret hs] at hab
        exact Bool.false_ne_true hab
    · intro hev
      rw [press_cb_wrong_event h s button_event send_ret hev]
  exact ⟨hiff, fun hab => press_cb_wrong_event h s button_event send_ret (hiff.mp hab)⟩

/-- An instance of `press_cb_aborts_iff_wrong_event`: button event `0` while
bound. -/
theorem press_cb_aborts_iff_wrong_event_witness :
    (0 : Int) ≠ sampleHeaders.BUTTON_SINGLE_CLICK ∧
    (app_initiator_send_press_cb sampleHeaders
        ⟨app_espnow_ctrl_status_t.APP_ESPNOW_CTRL_BOUND, true⟩ 0 0).aborted = true ∧
    app_initiator_send_press_cb sampleHeaders
        ⟨app_espnow_ctrl_status_t.APP_ESPNOW_CTRL_BOUND, true⟩ 0 0 =
      ⟨⟨app_espnow_ctrl_status_t.APP_ESPNOW_CTRL_BOUND, true⟩, [], true⟩ :=
  ⟨by decide,
    (press_cb_aborts_iff_wrong_event sampleHeaders
      ⟨app_espnow_ctrl_status_t.APP_ESPNOW_CTRL_BOUND, true⟩ 0 0).1.mpr (by decide),
    (press_cb_aborts_iff_wrong_event sampleHeaders
      ⟨app_espnow_ctrl_status_t.APP_ESPNOW_CTRL_BOUND, true⟩ 0 0).2
      ((press_cb_aborts_iff_wrong_event sampleHeaders
        ⟨app_espnow_ctrl_status_t.APP_ESPNOW_CTRL_BOUND, true⟩ 0 0).1.mpr (by decide))⟩

/-! ## The reachable states (C10) -/

/-- C10: from the initial state, any finite sequence of event-handler
invocations (any base, id and payload) and of single clicks returns every time
and ends in the initial state again (`s_espnow_ctrl_status =
APP_ESPNOW_CTRL_INIT`, toggle `false`), with no call to
`espnow_ctrl_initiator_send` among its effects. -/
theorem initial_state_is_invariant (h : Headers) (inputs : List Input)
    (hadm : inputs.all (Input.admissible h) = true) :
    (run h State.initial inputs).aborted = false ∧
    (run h State.initial inputs).state = State.initial ∧
    sends (run h State.initial inputs).effects = [] := by
  have hinit : State.initial.s_espnow_ctrl_status ≠
      app_espnow_ctrl_status_t.APP_ESPNOW_CTRL_BOUND := by decide
  exact ⟨run_admissible_returns h inputs State.initial hadm,
    run_not_bound h inputs State.initial hinit⟩

/-- An instance of `initial_state_is_invariant`: the sequence `bindHeavyInputs`. -/
theorem initial_state_is_invariant_witness :
    bindHeavyInputs.all (Input.admissible sampleHeaders) = true ∧
    ((run sampleHeaders State.initial bindHeavyInputs).aborted = false ∧
    (run sampleHeaders State.initial bindHeavyInputs).state = State.initial ∧
    sends (run sampleHeaders State.initial bindHeavyInputs).effects = []) :=
  ⟨by decide, initial_state_is_invariant sampleHeaders bindHeavyInputs (by decide)⟩

end ControlTransmitter
